import Mathlib

/-!
# Verification of the PDF-service repository

A shallow embedding, in Lean 4, of the parts of the
`pdf-service-exploration` repository that its specification makes claims
about: the `PlaywrightPDFGenerator` session manager (browser lifecycle,
page lifecycle, template rendering), the standalone generation adapters
(`generatePDFWithPuppeteer`, `generatePDFWithPDFLib`,
`generatePDFWithPDFKit`, …), and the Express facade in `server.js`
(`/api/pdf/generate` and `/api/pdf/test-all`).

JavaScript effects are modelled explicitly:
* a call either returns a value or throws — modelled as `Except String α`
  (the `String` is the JS `error.message`);
* the outcome of each external operation (launching the browser engine,
  opening a page, reading a file, rendering, writing a file) is an input
  to the embedded function, packaged in an environment record, so a
  theorem quantifying over environments covers every success/failure
  path of the original code;
* wall-clock reads (`Date.now() - startTime`) are supplied by the
  environment as an elapsed-milliseconds value;
* module-level mutable state (`this.browser`, `this.isInitialized`,
  `generatorInstance`) is threaded as explicit state values.

Engine-internal behaviour (what Chromium does with a page) is opaque,
exactly as the specification scopes it; only the sizes/messages it
produces are environment inputs.  The `close` cleanup calls are modelled
as non-throwing, matching the specification's scoping of engines as
opaque collaborators.
-/

namespace PdfService

/-! ## Template substitution (`PlaywrightPDFGenerator.substituteTemplate`)

The source is a single global-regex replace:

```js
substituteTemplate(template, data) {
  return template.replace(/\{\x7b(\w+)\}\x7d/g, (match, key) => {
    return data[key] !== undefined ? data[key] : match;
  });
}
```

The embedding scans the character list left to right, exactly as the JS
regex engine does for a global pattern: at each position, try to match
`{\x7b`, then a maximal non-empty run of word characters, then `}\x7d`;
on a match, emit the replacement (the data value if defined, the match
itself verbatim otherwise) and resume after the match; otherwise emit
one character and advance one position.  (`\w+` is greedy, and since a
word character is never `}`, the greedy run is the only candidate run —
no backtracking case arises.)  Recursion is by fuel, one unit per
scanned position, so `fuel = length` always suffices; the fuel
formulation keeps the function kernel-computable. -/

/-- JS `\w`: ASCII letters, digits, underscore. -/
def isWordChar (c : Char) : Bool :=
  c.isAlphanum || c == '_'

/-- Try to complete a placeholder match at a scan position just past a
leading `{\x7b`: a non-empty greedy run of word characters followed by
`}\x7d`.  Returns the key and the text after the closing braces. -/
def matchPlaceholder (cs : List Char) : Option (List Char × List Char) :=
  let key := cs.takeWhile isWordChar
  let after := cs.dropWhile isWordChar
  if key.isEmpty then none
  else if after.take 2 = ['}', '}'] then some (key, after.drop 2)
  else none

/-- One fuel unit is consumed per scan position; see
`PlaywrightPDFGenerator.substituteTemplate` in the source. -/
def substFuel (data : String → Option String) : Nat → List Char → List Char
  | _, [] => []
  | 0, cs => cs
  | fuel + 1, c :: cs =>
    if c = '{' then
      match cs with
      | c2 :: cs2 =>
        if c2 = '{' then
          match matchPlaceholder cs2 with
          | some (key, rest) =>
            (match data (String.mk key) with
              | some v => v.data
              | none => '{' :: '{' :: (key ++ ['}', '}'])) ++ substFuel data fuel rest
          | none => c :: substFuel data fuel cs
        else c :: substFuel data fuel cs
      | [] => c :: substFuel data fuel cs
    else c :: substFuel data fuel cs

/-- `PlaywrightPDFGenerator.substituteTemplate`, on `String`. -/
def substituteTemplate (template : String) (data : String → Option String) : String :=
  String.mk (substFuel data template.data.length template.data)

/-! ### Specification-side view of templates

A template presented as alternating literal text and `{\x7bkey}\x7d`
placeholders, used to state what `substituteTemplate` computes.  A
segment list is well formed when literal text contains no `{` and every
placeholder key is a non-empty run of word characters. -/

inductive Seg
  | lit (s : List Char)
  | hole (key : List Char)

/-- The concrete text of a segment inside the template. -/
def Seg.render : Seg → List Char
  | .lit s => s
  | .hole k => '{' :: '{' :: (k ++ ['}', '}'])

/-- The template text denoted by a segment list. -/
def renderTemplate (segs : List Seg) : List Char :=
  (segs.map Seg.render).flatten

/-- What one segment should become: literals unchanged; a placeholder
becomes its data value when defined, else stays verbatim. -/
def Seg.substOne (data : String → Option String) : Seg → List Char
  | .lit s => s
  | .hole k =>
    match data (String.mk k) with
    | some v => v.data
    | none => '{' :: '{' :: (k ++ ['}', '}'])

/-- Segment-wise substitution over a whole segment list. -/
def substSegs (data : String → Option String) (segs : List Seg) : List Char :=
  (segs.map (Seg.substOne data)).flatten

/-- Well-formedness of one segment (decidable, for concrete checks). -/
def Seg.wf : Seg → Bool
  | .lit s => !s.contains '{'
  | .hole k => !k.isEmpty && k.all isWordChar

/-! ## The `PlaywrightPDFGenerator` session manager (`src/unnamed/part_000`)

Mutable instance state (`this.browser`, `this.isInitialized`) is a
`GenState`; the outcome of each awaited engine/file operation comes from
a `BrowserEnv` record, so quantifying over environments covers every
success/failure path.  A browser handle is an opaque `Nat` id. -/

/-- The constructor's fixed `browserArgs` default. -/
def defaultBrowserArgs : List String :=
  ["--no-sandbox", "--disable-setuid-sandbox", "--disable-dev-shm-usage",
   "--disable-gpu", "--disable-software-rasterizer"]

/-- A `margin` record, in pixels (the source writes them as `20px` strings). -/
structure Margins where
  top : Nat
  right : Nat
  bottom : Nat
  left : Nat
deriving DecidableEq, Repr

/-- The options object passed to `page.pdf`. -/
structure PdfOptions where
  format : String
  printBackground : Bool
  margin : Margins
deriving DecidableEq, Repr

/-- The constructor's fixed `pdfOptions` default. -/
def defaultPdfOptions : PdfOptions :=
  { format := "A4", printBackground := true,
    margin := { top := 20, right := 20, bottom := 20, left := 20 } }

/-- The generator's effective options after the constructor spread. -/
structure GeneratorOptions where
  browserArgs : List String
  pdfOptions : PdfOptions
deriving DecidableEq, Repr

/-- Caller-supplied partial options (`options = {}` argument of the
constructor): each top-level key either overrides the default wholly or
is absent. -/
structure GeneratorOptionOverrides where
  browserArgs : Option (List String) := none
  pdfOptions : Option PdfOptions := none
deriving DecidableEq, Repr

/-- The constructor body `this.options = { ...defaults, ...options }`. -/
def mkGeneratorOptions (o : GeneratorOptionOverrides) : GeneratorOptions :=
  { browserArgs := o.browserArgs.getD defaultBrowserArgs,
    pdfOptions := o.pdfOptions.getD defaultPdfOptions }

/-- Instance state of a `PlaywrightPDFGenerator`. -/
structure GenState where
  options : GeneratorOptions
  browser : Option Nat
  isInitialized : Bool
deriving DecidableEq, Repr

/-- `new PlaywrightPDFGenerator(options)`. -/
def newGenerator (o : GeneratorOptionOverrides) : GenState :=
  { options := mkGeneratorOptions o, browser := none, isInitialized := false }

/-- Outcomes of the awaited engine and file operations during one call
into the generator.  Defaults describe an all-success environment so
concrete counterexamples can name only the failing step. -/
structure BrowserEnv where
  launchOk : Bool := true
  launchErrMsg : String := "spawn chromium ENOENT"
  newBrowserId : Nat := 0
  newPageOk : Bool := true
  newPageErrMsg : String := "newPage failed"
  setContentOk : Bool := true
  setContentErrMsg : String := "Timeout 30000ms exceeded"
  pdfOk : Bool := true
  pdfErrMsg : String := "pdf generation failed"
  pdfSize : Nat := 1024
  writeOk : Bool := true
  writeErrMsg : String := "EACCES: permission denied"
  elapsedMs : Nat := 0
  browserVersion : String := "HeadlessChrome/120"
deriving DecidableEq, Repr

/-- `initialize()` (named `initGenerator` here only because `initialize`
is a Lean keyword).  Returns the post-call state, the thrown error or
unit, and the number of `chromium.launch` calls made.  On a launch
failure the instance fields were never assigned, so the state is
returned unchanged. -/
def initGenerator (st : GenState) (env : BrowserEnv) :
    GenState × Except String Unit × Nat :=
  if st.isInitialized && st.browser.isSome then
    (st, Except.ok (), 0)
  else if env.launchOk then
    ({ st with browser := some env.newBrowserId, isInitialized := true },
      Except.ok (), 1)
  else
    (st, Except.error ("Browser initialization failed: " ++ env.launchErrMsg), 1)

/-- The result object of `generateFromHTML` (the `buffer` field is
represented by its byte length, which is also `fileSize`). -/
inductive GenResult
  | success (fileSize generationTime : Nat) (outputPath : Option String)
  | failure (error : String) (generationTime : Nat)
deriving DecidableEq, Repr

/-- Resource accounting for one call: pages opened/closed and engine
launches performed. -/
structure CallTrace where
  pagesOpened : Nat := 0
  pagesClosed : Nat := 0
  launches : Nat := 0
deriving DecidableEq, Repr

/-- `generateFromHTML(html, outputPath)`.  The html string does not
influence control flow; step outcomes come from `env`.  The inner
`try/finally` closes the page on every path after `newPage` succeeds;
the outer `catch` converts any thrown error into a failure result.  A
`newPage` call on a `null` browser (unreachable from the exported
entry points) throws a TypeError, caught by the same outer catch. -/
def generateFromHTML (st : GenState) (env : BrowserEnv) (_html : String)
    (outputPath : Option String) : GenState × GenResult × CallTrace :=
  let step : GenState × Except String Unit × Nat :=
    if st.isInitialized then (st, Except.ok (), 0) else initGenerator st env
  match step with
  | (st1, Except.error e, l) =>
    (st1, GenResult.failure e env.elapsedMs, { launches := l })
  | (st1, Except.ok (), l) =>
    match st1.browser with
    | none =>
      (st1, GenResult.failure "Cannot read properties of null (reading newPage)"
        env.elapsedMs, { launches := l })
    | some _ =>
      if !env.newPageOk then
        (st1, GenResult.failure env.newPageErrMsg env.elapsedMs, { launches := l })
      else if !env.setContentOk then
        (st1, GenResult.failure env.setContentErrMsg env.elapsedMs,
          { pagesOpened := 1, pagesClosed := 1, launches := l })
      else if !env.pdfOk then
        (st1, GenResult.failure env.pdfErrMsg env.elapsedMs,
          { pagesOpened := 1, pagesClosed := 1, launches := l })
      else if outputPath.isSome && !env.writeOk then
        (st1, GenResult.failure env.writeErrMsg env.elapsedMs,
          { pagesOpened := 1, pagesClosed := 1, launches := l })
      else
        (st1, GenResult.success env.pdfSize env.elapsedMs outputPath,
          { pagesOpened := 1, pagesClosed := 1, launches := l })

/-- The object returned by `healthCheck()`. -/
inductive HealthResult
  | healthy (browserVersion : String) (testPdfSize : Nat)
  | unhealthy (error : String)
deriving DecidableEq, Repr

/-- `healthCheck()`.  Unlike `generateFromHTML`, the source closes the
page with a plain `await page.close()` after `page.pdf`, not in a
`finally` block, so a throw from `setContent` or `pdf` reaches the
`catch` with the page still open. -/
def healthCheck (st : GenState) (env : BrowserEnv) :
    GenState × HealthResult × CallTrace :=
  let step : GenState × Except String Unit × Nat :=
    if st.isInitialized then (st, Except.ok (), 0) else initGenerator st env
  match step with
  | (st1, Except.error e, l) =>
    (st1, HealthResult.unhealthy e, { launches := l })
  | (st1, Except.ok (), l) =>
    match st1.browser with
    | none =>
      (st1, HealthResult.unhealthy "Cannot read properties of null (reading newPage)",
        { launches := l })
    | some _ =>
      if !env.newPageOk then
        (st1, HealthResult.unhealthy env.newPageErrMsg, { launches := l })
      else if !env.setContentOk then
        (st1, HealthResult.unhealthy env.setContentErrMsg,
          { pagesOpened := 1, launches := l })
      else if !env.pdfOk then
        (st1, HealthResult.unhealthy env.pdfErrMsg,
          { pagesOpened := 1, launches := l })
      else
        (st1, HealthResult.healthy env.browserVersion env.pdfSize,
          { pagesOpened := 1, pagesClosed := 1, launches := l })

/-- Outcomes of the template and asset reads performed by
`generateFromTemplate`.  The `*Content` strings stand for the base64
payloads of the loaded files. -/
structure TemplateEnv where
  templateOk : Bool := true
  templateErrMsg : String := "ENOENT: no such file or directory"
  templateContent : String := ""
  testSvgOk : Bool := true
  testSvgContent : String := ""
  logoSvgOk : Bool := true
  logoSvgContent : String := ""
  testImageOk : Bool := true
  testImageContent : String := ""
deriving DecidableEq, Repr

/-- The `assetData` object built by `generateFromTemplate`: each of the
three reads is wrapped in its own try/catch, so a missing asset merely
leaves its key absent. -/
def assetData (tenv : TemplateEnv) : String → Option String := fun k =>
  if k == "testSvgDataUri" && tenv.testSvgOk then
    some ("data:image/svg+xml;base64," ++ tenv.testSvgContent)
  else if k == "logoSvgDataUri" && tenv.logoSvgOk then
    some ("data:image/svg+xml;base64," ++ tenv.logoSvgContent)
  else if k == "testImageDataUri" && tenv.testImageOk then
    some ("data:image/png;base64," ++ tenv.testImageContent)
  else none

/-- `generateFromTemplate(templatePath, data, outputPath)`: read the
template (failure is fatal, prefixed `Template processing failed:` with
`generationTime: 0`), load assets best-effort, merge
(`{ ...data, ...assetData }`, asset keys winning), substitute, and
delegate to `generateFromHTML`. -/
def generateFromTemplate (st : GenState) (tenv : TemplateEnv) (env : BrowserEnv)
    (data : String → Option String) (outputPath : Option String) :
    GenState × GenResult × CallTrace :=
  if !tenv.templateOk then
    (st, GenResult.failure ("Template processing failed: " ++ tenv.templateErrMsg) 0, {})
  else
    let mergedData : String → Option String :=
      fun k => ((assetData tenv) k).orElse (fun _ => data k)
    generateFromHTML st env (substituteTemplate tenv.templateContent mergedData) outputPath

/-- Module-level `getPDFGenerator(options)`: `generatorInstance` is the
`Option GenState` threaded in and out; a fresh instance is constructed
only when none exists. -/
def getPDFGenerator (inst : Option GenState) (o : GeneratorOptionOverrides) :
    GenState × Option GenState :=
  match inst with
  | none => (newGenerator o, some (newGenerator o))
  | some g => (g, some g)

/-! ## Standalone generation adapters (`src/tests/*.js`)

Each exported adapter is an async function `(data) -> result object`
whose whole body sits in one `try/catch` (engine-backed ones also carry
a `finally` that closes the browser).  An adapter call is embedded as a
value of `Except String AdapterResult`: `.ok r` means the function
returned `r`; `.error` would mean an exception escaped the adapter.
Each adapter's fallible awaited steps are listed in program order in a
`…Body` function returning the first thrown message, mirroring how an
exception aborts the rest of the `try` block. -/

/-- Common shape of the result objects the adapters return. -/
structure AdapterResult where
  success : Bool
  library : String
  error : Option String := none
  generationTime : Nat := 0
  fileSize : Option Nat := none
  outputPath : Option String := none
  notes : Option String := none
deriving DecidableEq, Repr

/-- Step outcomes for one `generatePDFWithPuppeteer` call
(`src/tests/puppeteer-test.js`).  File paths in messages are abbreviated
relative to the repository root. -/
structure PupEnv where
  launchOk : Bool := true
  launchErrMsg : String := "Failed to launch the browser process"
  newPageOk : Bool := true
  newPageErrMsg : String := "newPage failed"
  htmlOk : Bool := true
  htmlErrMsg : String := "ENOENT: assets/sample-html.html"
  testSvgOk : Bool := true
  testSvgErrMsg : String := "ENOENT: assets/test.svg"
  logoSvgOk : Bool := true
  logoSvgErrMsg : String := "ENOENT: assets/logo.svg"
  testImageOk : Bool := true
  testImageErrMsg : String := "ENOENT: assets/test-image.png"
  setContentOk : Bool := true
  setContentErrMsg : String := "Navigation timeout of 30000 ms exceeded"
  pdfOk : Bool := true
  pdfErrMsg : String := "pdf generation failed"
  pdfSize : Nat := 1024
  writeOk : Bool := true
  writeErrMsg : String := "EACCES: permission denied"
  elapsedMs : Nat := 0
deriving DecidableEq, Repr

/-- The `try` block of `generatePDFWithPuppeteer`, steps in program
order: launch, newPage, read template, read `test.svg`, read
`logo.svg`, read `test-image.png`, (pure replaces), setContent, pdf,
write output.  Note the three asset reads are *not* individually
guarded — any of them throwing aborts the whole render. -/
def puppeteerBody (env : PupEnv) : Except String Nat :=
  if !env.launchOk then Except.error env.launchErrMsg
  else if !env.newPageOk then Except.error env.newPageErrMsg
  else if !env.htmlOk then Except.error env.htmlErrMsg
  else if !env.testSvgOk then Except.error env.testSvgErrMsg
  else if !env.logoSvgOk then Except.error env.logoSvgErrMsg
  else if !env.testImageOk then Except.error env.testImageErrMsg
  else if !env.setContentOk then Except.error env.setContentErrMsg
  else if !env.pdfOk then Except.error env.pdfErrMsg
  else if !env.writeOk then Except.error env.writeErrMsg
  else Except.ok env.pdfSize

/-- `generatePDFWithPuppeteer(data)`: the catch converts any thrown
message into a failure result with the elapsed time; the finally closes
the browser on both paths. -/
def generatePDFWithPuppeteer (env : PupEnv) : Except String AdapterResult :=
  Except.ok (match puppeteerBody env with
    | Except.ok size =>
      { success := true, library := "puppeteer", generationTime := env.elapsedMs,
        fileSize := some size, outputPath := some "output/puppeteer-test.pdf",
        notes := some "Successfully generated PDF with embedded SVG" }
    | Except.error e =>
      { success := false, library := "puppeteer", error := some e,
        generationTime := env.elapsedMs })

/-- Step outcomes for one `generatePDFWithPDFLib` call
(`src/tests/pdf-lib-test.js`, first variant): all drawing is pure; the
fallible awaited steps are `pdfDoc.save()` and the output write. -/
structure PdfLibEnv where
  saveOk : Bool := true
  saveErrMsg : String := "save failed"
  pdfSize : Nat := 900
  writeOk : Bool := true
  writeErrMsg : String := "EACCES: permission denied"
  elapsedMs : Nat := 0
deriving DecidableEq, Repr

/-- The `try` block of `generatePDFWithPDFLib`. -/
def pdfLibBody (env : PdfLibEnv) : Except String Nat :=
  if !env.saveOk then Except.error env.saveErrMsg
  else if !env.writeOk then Except.error env.writeErrMsg
  else Except.ok env.pdfSize

/-- `generatePDFWithPDFLib(data)`. -/
def generatePDFWithPDFLib (env : PdfLibEnv) : Except String AdapterResult :=
  Except.ok (match pdfLibBody env with
    | Except.ok size =>
      { success := true, library := "pdf-lib", generationTime := env.elapsedMs,
        fileSize := some size, outputPath := some "output/pdf-lib-test.pdf",
        notes := some "Modern library, low-level API, no native SVG support" }
    | Except.error e =>
      { success := false, library := "pdf-lib", error := some e,
        generationTime := env.elapsedMs })

/-! ### `generatePDFWithPDFKit` (`src/tests/pdfkit-test.js`)

The in-process adapter builds the document imperatively.  The document
is modelled as the list of text items appended to it, which is what the
claim about inline error markers observes.  Each of the four asset
sections sits in its own `try/catch` whose catch appends a red error
marker to the document and continues. -/

/-- Outcome of one asset section: the `fs.access` existence check, the
file read (only the SVG sections read a file), and the
draw/render call, each fallible, in that order. -/
structure AssetAttempt where
  accessOk : Bool := true
  readOk : Bool := true
  readErrMsg : String := "read failed"
  renderOk : Bool := true
  renderErrMsg : String := "render failed"
deriving DecidableEq, Repr

/-- Text items one asset section contributes to the document.  A failed
access check throws before the section header text is written; a failed
render throws after it; the catch appends `label ++ message`. -/
def assetSection (header errLabel notFoundMsg item : String) (a : AssetAttempt) :
    List String :=
  if !a.accessOk then [errLabel ++ notFoundMsg]
  else if !a.readOk then [errLabel ++ a.readErrMsg]
  else if !a.renderOk then [header, errLabel ++ a.renderErrMsg]
  else [header, item]

/-- Step outcomes for one `generatePDFWithPDFKit` call.  `todayStr` is
`new Date().toLocaleDateString()`. -/
structure PdfKitEnv where
  png : AssetAttempt := {}
  jpg : AssetAttempt := {}
  svg : AssetAttempt := {}
  logo : AssetAttempt := {}
  streamOk : Bool := true
  streamErrMsg : String := "stream error"
  statOk : Bool := true
  statErrMsg : String := "stat failed"
  fileSize : Nat := 2048
  elapsedMs : Nat := 0
  todayStr : String := "1/1/2026"
deriving DecidableEq, Repr

/-- JS `x || default` on an optional string field: `undefined` and the
empty string (both falsy) select the default. -/
def jsOr (v : Option String) (d : String) : String :=
  match v with
  | some s => if s == "" then d else s
  | none => d

/-- The text items `generatePDFWithPDFKit` appends to the document, in
order (fixed headings, data fields with their defaults, then the four
asset sections). -/
def pdfkitDoc (data : String → Option String) (env : PdfKitEnv) : List String :=
  ["Prescription Document",
   "Date: " ++ jsOr (data "date") env.todayStr,
   "Patient Information",
   "Name: " ++ jsOr (data "patientName") "John Doe",
   "DOB: " ++ jsOr (data "patientDOB") "01/01/1990",
   "Prescription Details",
   jsOr (data "medicationName") "Sample Medication",
   "Dosage: " ++ jsOr (data "dosage") "10mg",
   "Instructions: " ++ jsOr (data "instructions") "Take once daily",
   "Image Support (PDFKit)"]
  ++ assetSection "PNG Image:" "PNG Error: "
       "PNG file not found at assets/test-image-png.png" "[png image]" env.png
  ++ assetSection "JPG Image:" "JPG Error: "
       "JPG file not found at assets/test-image-jpg.jpg" "[jpg image]" env.jpg
  ++ ["SVG Support (via svg-to-pdfkit)"]
  ++ assetSection "SVG Image (from file):" "SVG Error: "
       "SVG file not found at assets/test-svg-svg.svg" "[svg drawing]" env.svg
  ++ assetSection "SVG Logo (from file):" "SVG Logo Error: "
       "SVG logo file not found at assets/test-svg-logo.svg" "[svg logo]" env.logo

/-- The fallible steps of `generatePDFWithPDFKit` that are *not* inside
a per-asset catch: awaiting the output stream finish and `fs.stat`. -/
def pdfkitBody (env : PdfKitEnv) : Except String Nat :=
  if !env.streamOk then Except.error env.streamErrMsg
  else if !env.statOk then Except.error env.statErrMsg
  else Except.ok env.fileSize

/-- `generatePDFWithPDFKit(data)`: asset problems never appear here —
only stream/stat failures reach the outer catch. -/
def generatePDFWithPDFKit (env : PdfKitEnv) : Except String AdapterResult :=
  Except.ok (match pdfkitBody env with
    | Except.ok size =>
      { success := true, library := "pdfkit", generationTime := env.elapsedMs,
        fileSize := some size, outputPath := some "output/pdfkit-test.pdf",
        notes := some "Native PNG/JPG support. SVG support via svg-to-pdfkit library." }
    | Except.error e =>
      { success := false, library := "pdfkit", error := some e,
        generationTime := env.elapsedMs })

/-! ## Load-wait and page-layout configuration of the engine-backed
render paths

Each engine-backed render path passes a quiescence condition and
(possibly) an explicit `timeout` to `setContent`/`goto`, and a
page-layout object to `page.pdf`.  These are configuration constants
read straight off each source function. -/

/-- The options passed to the load call (`setContent` or `goto`). -/
structure LoadWait where
  waitUntil : String
  timeoutMs : Option Nat
deriving DecidableEq, Repr

/-- Modelled from the spec: the engine's default navigation timeout,
applied when an adapter passes no explicit `timeout`.  The engines
themselves are out-of-scope third-party collaborators; the spec fixes
the quiescence wait as "bounded by a fixed timeout, e.g. 30 seconds". -/
def engineDefaultTimeoutMs : Nat := 30000

/-- The bound actually in force for a load call. -/
def LoadWait.effectiveTimeoutMs (w : LoadWait) : Nat :=
  w.timeoutMs.getD engineDefaultTimeoutMs

/-- `generateFromHTML` (part_000): `waitUntil: networkidle, timeout: 30000`. -/
def generateFromHTMLLoadWait : LoadWait :=
  { waitUntil := "networkidle", timeoutMs := some 30000 }

/-- `generatePDFWithPuppeteer`: `setContent(html, { waitUntil: networkidle0 })`. -/
def puppeteerLoadWait : LoadWait :=
  { waitUntil := "networkidle0", timeoutMs := none }

/-- `generatePDFWithPuppeteerBase64`: `setContent(html, { waitUntil: networkidle0 })`. -/
def puppeteerBase64LoadWait : LoadWait :=
  { waitUntil := "networkidle0", timeoutMs := none }

/-- `generatePDFWithPuppeteerBaseURL`: `goto(fileUrl, { waitUntil: networkidle0, timeout: 30000 })`. -/
def puppeteerBaseURLLoadWait : LoadWait :=
  { waitUntil := "networkidle0", timeoutMs := some 30000 }

/-- `generatePDFWithPlaywrightBase64`: `setContent(html, { waitUntil: networkidle })`. -/
def playwrightBase64LoadWait : LoadWait :=
  { waitUntil := "networkidle", timeoutMs := none }

/-- `generatePDFWithPlaywrightBaseURL`: `goto(fileUrl, { waitUntil: networkidle, timeout: 30000 })`. -/
def playwrightBaseURLLoadWait : LoadWait :=
  { waitUntil := "networkidle", timeoutMs := some 30000 }

/-- `page.pdf` options of `generatePDFWithPuppeteer`. -/
def puppeteerPdfOptions : PdfOptions :=
  { format := "A4", printBackground := true,
    margin := { top := 20, right := 20, bottom := 20, left := 20 } }

/-- `page.pdf` options of `generatePDFWithPuppeteerBase64`. -/
def puppeteerBase64PdfOptions : PdfOptions :=
  { format := "A4", printBackground := true,
    margin := { top := 20, right := 20, bottom := 20, left := 20 } }

/-- `page.pdf` options of `generatePDFWithPuppeteerBaseURL`. -/
def puppeteerBaseURLPdfOptions : PdfOptions :=
  { format := "A4", printBackground := true,
    margin := { top := 20, right := 20, bottom := 20, left := 20 } }

/-- `page.pdf` options of `generatePDFWithPlaywrightBase64`. -/
def playwrightBase64PdfOptions : PdfOptions :=
  { format := "A4", printBackground := true,
    margin := { top := 20, right := 20, bottom := 20, left := 20 } }

/-- `page.pdf` options of `generatePDFWithPlaywrightBaseURL`. -/
def playwrightBaseURLPdfOptions : PdfOptions :=
  { format := "A4", printBackground := true,
    margin := { top := 20, right := 20, bottom := 20, left := 20 } }

/-! ## The HTTP facade (`src/server.js`)

The facade treats each adapter as a black-box async function returning
a result object; for the endpoint claims only the result shape matters,
so an adapter invocation is summarised by an `AdapterRun` (its
success/failure, message, time and size) drawn from the request
environment, and the result object it yields is rebuilt with the
`library` string each adapter's own source hard-codes. -/

/-- What one invocation of a given adapter produced. -/
structure AdapterRun where
  ok : Bool := true
  errMsg : String := "failure"
  timeMs : Nat := 0
  sizeBytes : Nat := 0
  outPath : String := "output/out.pdf"
deriving DecidableEq, Repr

/-- The result object an adapter with hard-coded `library` field
`libField` returns for a run: every adapter in the repository returns,
on both paths of its outer try/catch, an object carrying that constant
`library` string (success with time/size/path, or failure with the
caught message and elapsed time). -/
def adapterResultFor (libField : String) (r : AdapterRun) : AdapterResult :=
  if r.ok then
    { success := true, library := libField, generationTime := r.timeMs,
      fileSize := some r.sizeBytes, outputPath := some r.outPath }
  else
    { success := false, library := libField, error := some r.errMsg,
      generationTime := r.timeMs }

/-- The `libraries` mapping of server.js in insertion order, each key
paired with the `library` string that adapter's result hard-codes.
Every adapter whose source is in the corpus returns a `library` string
equal to its registry key; for `playwright`
(`tests/playwright-test.js`, imported by server.js but absent from the
corpus) the string is modelled from the spec: "each entry carries its
own adapter name". -/
def registry : List (String × String) :=
  [("puppeteer-base64", "puppeteer-base64"),
   ("puppeteer-baseurl", "puppeteer-baseurl"),
   ("playwright-base64", "playwright-base64"),
   ("playwright-baseurl", "playwright-baseurl"),
   ("puppeteer", "puppeteer"),
   ("playwright", "playwright"),
   ("pdfkit", "pdfkit"),
   ("pdfmake", "pdfmake"),
   ("pdf-lib", "pdf-lib")]

/-- `Object.keys(libraries)`. -/
def libraryNames : List String := registry.map Prod.fst

/-- Body of a `POST /api/pdf/generate` request: the `library` field may
be absent; the `data` payload does not influence routing. -/
structure GenerateRequestBody where
  library : Option String := none
deriving DecidableEq, Repr

/-- The JSON or binary payloads `/api/pdf/generate` can answer with.
The `generationError` fields are optional because the value whose
`error`/`generationTime` properties the handler reads need not be an
adapter result (see `PropLookup.inherited` below); an absent (JS
`undefined`) field is omitted by `res.json`. -/
inductive ResponseBody
  | requiredError
  | unknownLibraryError (library : String) (available : List String)
  | generationError (details : Option String) (library : String)
      (generationTime : Option Nat)
  | internalError (message : String)
  | pdfAttachment (filename : String) (generationTimeHeader fileSizeHeader : String)
      (bytes : Nat)
deriving DecidableEq, Repr

/-- An HTTP response: status code plus payload. -/
structure HttpResponse where
  status : Nat
  body : ResponseBody
deriving DecidableEq, Repr

/-- The property reads the handler performs on whatever value
`libraries[library](data || {})` produced: `success` is the truthiness
of reading `.success`; the other fields are `none` when the property is
`undefined` on that value.  For a registered adapter the fields are the
adapter result's; for an inherited `Object.prototype` member they
depend on the member and the caller's data. -/
structure LooseResult where
  success : Bool := false
  error : Option String := none
  generationTime : Option Nat := none
  fileSize : Option Nat := none
  outputPath : Option String := none
deriving DecidableEq, Repr

/-- View of a registered adapter's result through the handler's
property reads. -/
def looseOf (r : AdapterResult) : LooseResult :=
  { success := r.success, error := r.error, generationTime := some r.generationTime,
    fileSize := r.fileSize, outputPath := r.outputPath }

/-- The own members of `Object.prototype`, every one of which reads as
a truthy value (a method, or the `__proto__` accessor's object), so
the guard `!libraries[library]` does not reject these names even
though `Object.entries(libraries)` never lists them. -/
def objectPrototypeKeys : List String :=
  ["constructor", "hasOwnProperty", "isPrototypeOf", "propertyIsEnumerable",
   "toLocaleString", "toString", "valueOf",
   "__defineGetter__", "__defineSetter__", "__lookupGetter__", "__lookupSetter__",
   "__proto__"]

/-- What the JS property access `libraries[library]` yields: an own
property (a registered adapter), a truthy member inherited from
`Object.prototype`, or `undefined`. -/
inductive PropLookup
  | own (libField : String)
  | inherited
  | absent
deriving DecidableEq, Repr

/-- `libraries[library]` with prototype-chain semantics. -/
def lookupLibrary (name : String) : PropLookup :=
  match registry.find? (fun p => p.1 == name) with
  | some p => PropLookup.own p.2
  | none =>
    if objectPrototypeKeys.contains name then PropLookup.inherited
    else PropLookup.absent

/-- Per-request environment of the facade: the outcome each registered
adapter would produce if invoked, the outcome of calling an inherited
`Object.prototype` member in an adapter's place (thrown `TypeError`,
e.g. for the non-callable `__proto__`, or a returned value viewed
through the handler's property reads), and the outcome of reading the
generated file back for streaming. -/
structure ServerEnv where
  runOf : String → AdapterRun
  inheritedCall : String → Except String LooseResult := fun _ => Except.ok {}
  readOk : Bool := true
  readErrMsg : String := "ENOENT: output file"
  readBytes : Nat := 0

/-- The handler's response to the value it obtained for `result`:
on truthy `success` it awaits `fs.readFile(result.outputPath)` (a
non-string path or a failed read throws) and then calls `.toString()`
on `generationTime` and `fileSize` for the headers (throwing if either
is `undefined`) before answering 200; on falsy `success` it answers
500 with the generation-failed JSON.  Every throw lands in the
handler's outer catch, a 500 internal error. -/
def respondWith (name : String) (env : ServerEnv) (v : LooseResult) : HttpResponse :=
  if v.success then
    match v.outputPath with
    | none =>
      { status := 500,
        body := ResponseBody.internalError "The path argument must be of type string" }
    | some _ =>
      if !env.readOk then
        { status := 500, body := ResponseBody.internalError env.readErrMsg }
      else
        match v.generationTime, v.fileSize with
        | some t, some s =>
          { status := 200,
            body := ResponseBody.pdfAttachment (name ++ "-output.pdf")
              (toString t) (toString s) env.readBytes }
        | _, _ =>
          { status := 500,
            body := ResponseBody.internalError
              "Cannot read properties of undefined (reading toString)" }
  else
    { status := 500, body := ResponseBody.generationError v.error name v.generationTime }

/-- The `POST /api/pdf/generate` handler.  Returns the response and the
list of registered adapters invoked (engine connections are started
only inside registered engine-backed adapter bodies, so an empty list
means no engine start was attempted).  `if (!library)` is a JS
falsiness check, so an empty-string name is also rejected as missing;
`if (!libraries[library])` is a falsiness check on a prototype-chain
property access, so a name shadowing an `Object.prototype` member
passes the guard and that inherited member is called in the adapter's
place. -/
def generateEndpoint (body : GenerateRequestBody) (env : ServerEnv) :
    HttpResponse × List String :=
  match body.library with
  | none => ({ status := 400, body := ResponseBody.requiredError }, [])
  | some name =>
    if name == "" then
      ({ status := 400, body := ResponseBody.requiredError }, [])
    else
      match lookupLibrary name with
      | PropLookup.absent =>
        ({ status := 400, body := ResponseBody.unknownLibraryError name libraryNames }, [])
      | PropLookup.own libField =>
        (respondWith name env (looseOf (adapterResultFor libField (env.runOf name))),
          [name])
      | PropLookup.inherited =>
        (match env.inheritedCall name with
          | Except.error e => { status := 500, body := ResponseBody.internalError e }
          | Except.ok v => respondWith name env v, [])

/-- The `summary` object of `POST /api/pdf/test-all`. -/
structure TestAllSummary where
  total : Nat
  successful : Nat
  failed : Nat
deriving DecidableEq, Repr

/-- The `POST /api/pdf/test-all` handler: run every registered adapter
in order, pushing `{ library: name, ...result }` — the spread places
the adapter's own always-present `library` field after the key, so the
entry carries the adapter's hard-coded string; the summary counts the
entries by their `success` flag.  (The per-iteration catch is dead
code here: every adapter converts its own exceptions.) -/
def testAll (env : ServerEnv) : List AdapterResult × TestAllSummary :=
  let results := registry.map (fun p => adapterResultFor p.2 (env.runOf p.1))
  (results,
   { total := results.length,
     successful := (results.filter (fun r => r.success)).length,
     failed := (results.filter (fun r => !r.success)).length })

/-! ## Shared lemmas -/

/-- The `library` field an adapter result carries is its hard-coded
constant, on both the success and the failure path. -/
theorem adapterResultFor_library (lf : String) (r : AdapterRun) :
    (adapterResultFor lf r).library = lf := by
  unfold adapterResultFor
  split <;> rfl

/-- A boolean predicate partitions a list's length. -/
theorem filter_length_partition {α : Type} (p : α → Bool) (l : List α) :
    (l.filter p).length + (l.filter (fun x => !p x)).length = l.length := by
  induction l with
  | nil => rfl
  | cons a t ih =>
    by_cases h : p a <;> simp [List.filter_cons, h] <;> omega

/-- An unregistered name is not found in the `libraries` mapping. -/
theorem registry_find_none {name : String} (h : name ∉ libraryNames) :
    registry.find? (fun p => p.1 == name) = none := by
  rw [List.find?_eq_none]
  intro p hp hbeq
  exact h (by
    have : p.1 = name := by
      simpa using hbeq
    rw [← this]
    exact List.mem_map_of_mem Prod.fst hp)

/-- No member of `Object.prototype` is named by the empty string. -/
theorem objectPrototypeKeys_ne_empty :
    ∀ n ∈ objectPrototypeKeys, (n == "") = false := by
  decide

/-- A name that is neither registered nor an `Object.prototype` member
reads as `undefined`. -/
theorem lookupLibrary_absent {name : String} (h1 : name ∉ libraryNames)
    (h2 : name ∉ objectPrototypeKeys) : lookupLibrary name = PropLookup.absent := by
  unfold lookupLibrary
  rw [registry_find_none h1]
  have hc : objectPrototypeKeys.contains name = false := by
    by_contra hcc
    exact h2 (List.elem_iff.mp (by simpa using hcc))
  simp [hc]
  exact h2

/-- An unregistered name shadowing an `Object.prototype` member reads
as that inherited, truthy member. -/
theorem lookupLibrary_inherited {name : String} (h1 : name ∉ libraryNames)
    (h2 : name ∈ objectPrototypeKeys) : lookupLibrary name = PropLookup.inherited := by
  unfold lookupLibrary
  rw [registry_find_none h1]
  have hc : objectPrototypeKeys.contains name = true := by
    simpa [List.elem_iff] using h2
  simp [hc]
  exact h2

/-- Once the guard has passed, no code path of the handler answers a
400: every branch is a 200 attachment or a 500 error. -/
theorem respondWith_status_ne_400 (name : String) (env : ServerEnv) (v : LooseResult) :
    (respondWith name env v).status ≠ 400 := by
  unfold respondWith
  by_cases hs : v.success
  · simp only [hs, if_true]
    cases v.outputPath with
    | none => simp
    | some p =>
      by_cases hr : env.readOk
      · simp only [hr]
        cases v.generationTime <;> cases v.fileSize <;> simp
      · simp [hr]
  · simp [hs]

/-! ## Claim theorems -/

/-- Claim C2: while a live session exists (`isInitialized` set and a
browser handle present), calling `initialize` again returns immediately
with the state unchanged and performs no engine launch; likewise a
rendering call on an initialized generator performs no launch on any
path. -/
theorem initGenerator_idempotent_live (st : GenState) (env : BrowserEnv) (b : Nat)
    (h1 : st.isInitialized = true) (h2 : st.browser = some b) :
    initGenerator st env = (st, Except.ok (), 0)
    ∧ ∀ (html : String) (out : Option String),
        (generateFromHTML st env html out).2.2.launches = 0 := by
  constructor
  · unfold initGenerator
    rw [h1, h2]
    rfl
  · intro html out
    simp only [generateFromHTML, h1, h2]
    by_cases h4 : env.newPageOk <;>
      by_cases h5 : env.setContentOk <;>
      by_cases h6 : env.pdfOk <;>
      by_cases h7 : out.isSome <;>
      by_cases h8 : env.writeOk <;>
      simp_all

/-- Witness for C2 at a concrete live state. -/
theorem initGenerator_idempotent_live_witness :
    initGenerator
        { options := mkGeneratorOptions {}, browser := some 7, isInitialized := true } {}
      = ({ options := mkGeneratorOptions {}, browser := some 7, isInitialized := true },
          Except.ok (), 0)
    ∧ ∀ (html : String) (out : Option String),
        (generateFromHTML
            { options := mkGeneratorOptions {}, browser := some 7, isInitialized := true }
            {} html out).2.2.launches = 0 :=
  initGenerator_idempotent_live
    { options := mkGeneratorOptions {}, browser := some 7, isInitialized := true }
    {} 7 rfl rfl

/-- Claim C7: when the engine launch fails, `initialize` throws
`Browser initialization failed: …` and the manager state is returned
unchanged (still uninitialized, no browser handle assigned), so a
subsequent call with a working engine performs the launch and reaches
the live state. -/
theorem launch_failure_state_unchanged (st : GenState) (env env2 : BrowserEnv)
    (h0 : st.isInitialized = false) (h1 : env.launchOk = false)
    (h2 : env2.launchOk = true) :
    initGenerator st env
      = (st, Except.error ("Browser initialization failed: " ++ env.launchErrMsg), 1)
    ∧ initGenerator st env2
      = ({ st with browser := some env2.newBrowserId, isInitialized := true },
          Except.ok (), 1) := by
  unfold initGenerator
  rw [h0, h1, h2]
  simp

/-- Witness for C7: fresh generator, missing engine binary, then retry. -/
theorem launch_failure_state_unchanged_witness :
    initGenerator (newGenerator {}) { launchOk := false }
      = (newGenerator {},
          Except.error ("Browser initialization failed: " ++ "spawn chromium ENOENT"), 1)
    ∧ initGenerator (newGenerator {}) {}
      = ({ newGenerator {} with browser := some 0, isInitialized := true },
          Except.ok (), 1) :=
  launch_failure_state_unchanged (newGenerator {}) { launchOk := false } {} rfl rfl rfl

/-- Claim C8: every engine-backed render path waits for quiescence
under an effective 30-second bound (explicit where passed, the engine
default otherwise) and extracts bytes with the fixed A4 /
print-background / 20px-margins layout. -/
theorem engine_load_wait_and_pdf_config :
    (generateFromHTMLLoadWait.effectiveTimeoutMs = 30000
      ∧ puppeteerLoadWait.effectiveTimeoutMs = 30000
      ∧ puppeteerBase64LoadWait.effectiveTimeoutMs = 30000
      ∧ puppeteerBaseURLLoadWait.effectiveTimeoutMs = 30000
      ∧ playwrightBase64LoadWait.effectiveTimeoutMs = 30000
      ∧ playwrightBaseURLLoadWait.effectiveTimeoutMs = 30000)
    ∧ (defaultPdfOptions
        = { format := "A4", printBackground := true,
            margin := { top := 20, right := 20, bottom := 20, left := 20 } }
      ∧ puppeteerPdfOptions = defaultPdfOptions
      ∧ puppeteerBase64PdfOptions = defaultPdfOptions
      ∧ puppeteerBaseURLPdfOptions = defaultPdfOptions
      ∧ playwrightBase64PdfOptions = defaultPdfOptions
      ∧ playwrightBaseURLPdfOptions = defaultPdfOptions) := by
  decide

/-- Claim C10: `getPDFGenerator` is a first-call-wins singleton — the
first call constructs the instance from its own options, and any later
call returns that instance unchanged whatever its options argument. -/
theorem getPDFGenerator_first_call_wins (o1 o2 : GeneratorOptionOverrides) :
    (getPDFGenerator none o1).1 = newGenerator o1
    ∧ getPDFGenerator (getPDFGenerator none o1).2 o2
        = (newGenerator o1, some (newGenerator o1)) :=
  ⟨rfl, rfl⟩

/-- Claim C3: the modelled adapters return a result on every
environment (no exception escapes), and whenever the try-block body
throws, the returned result is the failure object carrying that thrown
message and the elapsed time. -/
theorem adapters_never_throw (envP : PupEnv) (envL : PdfLibEnv) (envK : PdfKitEnv) :
    ((∃ r, generatePDFWithPuppeteer envP = Except.ok r)
      ∧ ∀ e, puppeteerBody envP = Except.error e →
          generatePDFWithPuppeteer envP
            = Except.ok { success := false, library := "puppeteer",
                          error := some e, generationTime := envP.elapsedMs })
    ∧ ((∃ r, generatePDFWithPDFLib envL = Except.ok r)
      ∧ ∀ e, pdfLibBody envL = Except.error e →
          generatePDFWithPDFLib envL
            = Except.ok { success := false, library := "pdf-lib",
                          error := some e, generationTime := envL.elapsedMs })
    ∧ ((∃ r, generatePDFWithPDFKit envK = Except.ok r)
      ∧ ∀ e, pdfkitBody envK = Except.error e →
          generatePDFWithPDFKit envK
            = Except.ok { success := false, library := "pdfkit",
                          error := some e, generationTime := envK.elapsedMs }) := by
  refine ⟨⟨⟨_, rfl⟩, fun e h => ?_⟩, ⟨⟨_, rfl⟩, fun e h => ?_⟩, ⟨⟨_, rfl⟩, fun e h => ?_⟩⟩
  · unfold generatePDFWithPuppeteer
    rw [h]
  · unfold generatePDFWithPDFLib
    rw [h]
  · unfold generatePDFWithPDFKit
    rw [h]

/-- Witness for C3: one concrete internal failure per adapter family. -/
theorem adapters_never_throw_witness :
    generatePDFWithPuppeteer { testSvgOk := false }
      = Except.ok { success := false, library := "puppeteer",
                    error := some "ENOENT: assets/test.svg", generationTime := 0 }
    ∧ generatePDFWithPDFLib { saveOk := false }
      = Except.ok { success := false, library := "pdf-lib",
                    error := some "save failed", generationTime := 0 }
    ∧ generatePDFWithPDFKit { statOk := false }
      = Except.ok { success := false, library := "pdfkit",
                    error := some "stat failed", generationTime := 0 } :=
  ⟨(adapters_never_throw { testSvgOk := false } {} {}).1.2 _ rfl,
   (adapters_never_throw {} { saveOk := false } {}).2.1.2 _ rfl,
   (adapters_never_throw {} {} { statOk := false }).2.2.2 _ rfl⟩

/-- Claim C5 counterexample: `toString` is not a registered library,
yet the request is not answered 400 — `libraries["toString"]` finds the
inherited, truthy `Object.prototype.toString`, the guard passes, the
inherited method is called in the adapter's place (its return value
has no `success` property), and the facade answers 500 without the
available-libraries list. -/
theorem generate_endpoint_prototype_cex :
    "toString" ∉ libraryNames
    ∧ (generateEndpoint { library := some "toString" }
        { runOf := fun _ => {}, inheritedCall := fun _ => Except.ok {} }).1.status
      = 500 := by
  decide

/-- Claim C5 (amended): a missing — or empty, which the JS falsiness
check treats as missing — library name is answered 400 `requiredError`
with no adapter invoked; an unregistered name that does not shadow an
`Object.prototype` member is answered 400 with the structured error
listing the available libraries, with no adapter invoked; an
unregistered name that does shadow one slips past the guard — the
inherited member is called in the adapter's place, still no registered
adapter is invoked (hence no engine connection is started), but the
response is never the 400-class structured error. -/
theorem generate_endpoint_rejects_bad_library (body : GenerateRequestBody)
    (env : ServerEnv) (name : String) :
    (body.library = none →
      generateEndpoint body env
        = ({ status := 400, body := ResponseBody.requiredError }, []))
    ∧ (body.library = some "" →
      generateEndpoint body env
        = ({ status := 400, body := ResponseBody.requiredError }, []))
    ∧ (body.library = some name → name ≠ "" → name ∉ libraryNames →
        name ∉ objectPrototypeKeys →
      generateEndpoint body env
        = ({ status := 400, body := ResponseBody.unknownLibraryError name libraryNames },
            []))
    ∧ (body.library = some name → name ∉ libraryNames → name ∈ objectPrototypeKeys →
      (generateEndpoint body env).2 = []
      ∧ (generateEndpoint body env).1.status ≠ 400) := by
  refine ⟨fun h => ?_, fun h => ?_, fun h hne h1 h2 => ?_, fun h h1 h2 => ?_⟩
  · simp [generateEndpoint, h]
  · simp [generateEndpoint, h]
  · have hbeq : (name == "") = false := by
      simpa using hne
    simp [generateEndpoint, h, hbeq, lookupLibrary_absent h1 h2]
  · have hbeq : (name == "") = false := objectPrototypeKeys_ne_empty name h2
    constructor
    · simp [generateEndpoint, h, hbeq, lookupLibrary_inherited h1 h2]
    · simp only [generateEndpoint, h, hbeq, lookupLibrary_inherited h1 h2]
      cases hcall : env.inheritedCall name with
      | error e => simp [hcall]
      | ok v =>
        simp only [hcall]
        exact respondWith_status_ne_400 name env v

/-- Witness for the amended C5: one plain unregistered name (served
only by the sibling html-pdf-node service) and one prototype-shadowing
name. -/
theorem generate_endpoint_rejects_bad_library_witness :
    generateEndpoint { library := some "html-pdf-node" }
        { runOf := fun _ => {}, inheritedCall := fun _ => Except.ok {} }
      = ({ status := 400,
           body := ResponseBody.unknownLibraryError "html-pdf-node" libraryNames }, [])
    ∧ ((generateEndpoint { library := some "toString" }
          { runOf := fun _ => {}, inheritedCall := fun _ => Except.ok {} }).2 = []
        ∧ (generateEndpoint { library := some "toString" }
            { runOf := fun _ => {}, inheritedCall := fun _ => Except.ok {} }).1.status
          ≠ 400) :=
  ⟨(generate_endpoint_rejects_bad_library { library := some "html-pdf-node" }
      { runOf := fun _ => {}, inheritedCall := fun _ => Except.ok {} }
      "html-pdf-node").2.2.1 rfl (by decide) (by decide) (by decide),
   (generate_endpoint_rejects_bad_library { library := some "toString" }
      { runOf := fun _ => {}, inheritedCall := fun _ => Except.ok {} }
      "toString").2.2.2 rfl (by decide) (by decide)⟩

/-- Claim C6: the all-adapters endpoint returns one entry per
registered adapter, its summary satisfies
`successful + failed = total`, and each entry's `library` field is its
own adapter's name (in registration order). -/
theorem testAll_summary_consistent (env : ServerEnv) :
    (testAll env).2.total = libraryNames.length
    ∧ (testAll env).2.successful + (testAll env).2.failed = (testAll env).2.total
    ∧ (testAll env).1.map (fun r => r.library) = libraryNames := by
  refine ⟨?_, ?_, ?_⟩
  · simp [testAll, libraryNames]
  · exact filter_length_partition _ _
  · simp [testAll, libraryNames, List.map_map, registry, adapterResultFor_library]

/-- Claim C1 counterexample: on an initialized generator whose `pdf`
call throws, `healthCheck` opens a page and returns without closing it
— the opened/closed counts differ, refuting the claim that both
rendering operations release their context on every exit path. -/
theorem healthCheck_page_leak_cex :
    (healthCheck
        { options := mkGeneratorOptions {}, browser := some 0, isInitialized := true }
        { pdfOk := false }).2.2.pagesOpened
    ≠ (healthCheck
        { options := mkGeneratorOptions {}, browser := some 0, isInitialized := true }
        { pdfOk := false }).2.2.pagesClosed := by
  decide

/-- Claim C1 (amended): `generateFromHTML` balances page opens and
closes on every path (its close is in a `finally`); `healthCheck`
balances them exactly when either no page was opened or the call
succeeded — an exception thrown after its page opens leaves the page
unclosed. -/
theorem context_cleanup_amended (st : GenState) (env : BrowserEnv)
    (html : String) (out : Option String) :
    ((generateFromHTML st env html out).2.2.pagesOpened
      = (generateFromHTML st env html out).2.2.pagesClosed)
    ∧ ((healthCheck st env).2.2.pagesOpened = (healthCheck st env).2.2.pagesClosed
        ↔ ((healthCheck st env).2.2.pagesOpened = 0
            ∨ ∃ v n, (healthCheck st env).2.1 = HealthResult.healthy v n)) := by
  obtain ⟨opts, b, ini⟩ := st
  constructor
  · simp only [generateFromHTML, initGenerator]
    cases ini <;> rcases b with _ | bb <;>
      by_cases h3 : env.launchOk <;>
      by_cases h4 : env.newPageOk <;>
      by_cases h5 : env.setContentOk <;>
      by_cases h6 : env.pdfOk <;>
      by_cases h7 : out.isSome <;>
      by_cases h8 : env.writeOk <;>
      simp_all
  · simp only [healthCheck, initGenerator]
    cases ini <;> rcases b with _ | bb <;>
      by_cases h3 : env.launchOk <;>
      by_cases h4 : env.newPageOk <;>
      by_cases h5 : env.setContentOk <;>
      by_cases h6 : env.pdfOk <;>
      simp_all

/-- Claim C4 counterexample: `generatePDFWithPuppeteer` is
engine-backed, yet with one referenced asset missing (`logo.svg`) and
everything else healthy it returns a failure result instead of
skipping the asset — its asset reads are not individually guarded. -/
theorem engine_adapter_missing_asset_cex :
    ∃ r, generatePDFWithPuppeteer { logoSvgOk := false } = Except.ok r
      ∧ r.success = false :=
  ⟨_, rfl, rfl⟩

/-- Claim C4 (amended): the session manager's `generateFromTemplate`
treats missing assets as non-fatal — with all three asset reads
failing the render still succeeds; the standalone engine-backed test
adapters treat a missing asset as fatal, failing the whole render; the
in-process adapter records an inline error marker in the document and
still succeeds. -/
theorem asset_handling_amended (st : GenState) (tenv : TemplateEnv) (env : BrowserEnv)
    (data : String → Option String) (out : Option String)
    (envP : PupEnv) (dataK : String → Option String) (envK : PdfKitEnv)
    (hst : st.isInitialized = false)
    (htpl : tenv.templateOk = true)
    (_ha1 : tenv.testSvgOk = false) (_ha2 : tenv.logoSvgOk = false)
    (_ha3 : tenv.testImageOk = false)
    (henv : env.launchOk = true ∧ env.newPageOk = true ∧ env.setContentOk = true
      ∧ env.pdfOk = true ∧ env.writeOk = true)
    (hP : envP.testSvgOk = false ∧ envP.launchOk = true ∧ envP.newPageOk = true
      ∧ envP.htmlOk = true)
    (hK : envK.png.accessOk = false ∧ envK.streamOk = true ∧ envK.statOk = true) :
    (generateFromTemplate st tenv env data out).2.1
      = GenResult.success env.pdfSize env.elapsedMs out
    ∧ generatePDFWithPuppeteer envP
      = Except.ok { success := false, library := "puppeteer",
                    error := some envP.testSvgErrMsg, generationTime := envP.elapsedMs }
    ∧ (generatePDFWithPDFKit envK
        = Except.ok { success := true, library := "pdfkit",
                      generationTime := envK.elapsedMs, fileSize := some envK.fileSize,
                      outputPath := some "output/pdfkit-test.pdf",
                      notes := some "Native PNG/JPG support. SVG support via svg-to-pdfkit library." }
      ∧ ("PNG Error: " ++ "PNG file not found at assets/test-image-png.png")
          ∈ pdfkitDoc dataK envK) := by
  obtain ⟨he1, he2, he3, he4, he5⟩ := henv
  obtain ⟨hp1, hp2, hp3, hp4⟩ := hP
  obtain ⟨hk1, hk2, hk3⟩ := hK
  refine ⟨?_, ?_, ?_, ?_⟩
  · simp [generateFromTemplate, generateFromHTML, initGenerator, hst, htpl,
      he1, he2, he3, he4, he5]
  · simp [generatePDFWithPuppeteer, puppeteerBody, hp1, hp2, hp3, hp4]
  · simp [generatePDFWithPDFKit, pdfkitBody, hk2, hk3]
  · simp [pdfkitDoc, assetSection, hk1]

/-- Witness for the amended C4 at concrete inputs. -/
theorem asset_handling_amended_witness :
    (generateFromTemplate (newGenerator {})
        { testSvgOk := false, logoSvgOk := false, testImageOk := false }
        {} (fun _ => none) none).2.1
      = GenResult.success 1024 0 none
    ∧ generatePDFWithPuppeteer { testSvgOk := false }
      = Except.ok { success := false, library := "puppeteer",
                    error := some "ENOENT: assets/test.svg", generationTime := 0 }
    ∧ (generatePDFWithPDFKit { png := { accessOk := false } }
        = Except.ok { success := true, library := "pdfkit",
                      generationTime := 0, fileSize := some 2048,
                      outputPath := some "output/pdfkit-test.pdf",
                      notes := some "Native PNG/JPG support. SVG support via svg-to-pdfkit library." }
      ∧ ("PNG Error: " ++ "PNG file not found at assets/test-image-png.png")
          ∈ pdfkitDoc (fun _ => none) { png := { accessOk := false } }) :=
  asset_handling_amended (newGenerator {})
    { testSvgOk := false, logoSvgOk := false, testImageOk := false }
    {} (fun _ => none) none { testSvgOk := false } (fun _ => none)
    { png := { accessOk := false } }
    rfl rfl rfl rfl rfl
    ⟨rfl, rfl, rfl, rfl, rfl⟩ ⟨rfl, rfl, rfl, rfl⟩ ⟨rfl, rfl, rfl⟩

/-! ## Lemmas about the template scanner -/

/-- A closing brace is not a word character. -/
theorem isWordChar_rbrace : isWordChar '}' = false := by decide

/-- `substFuel` leaves the empty text empty at any fuel. -/
theorem substFuel_nil (data : String → Option String) (f : Nat) :
    substFuel data f [] = [] := by
  cases f <;> rfl

/-- `dropWhile` never lengthens a list. -/
theorem length_dropWhile_le (p : Char → Bool) (l : List Char) :
    (l.dropWhile p).length ≤ l.length := by
  induction l with
  | nil => simp
  | cons a t ih =>
    by_cases h : p a
    · simp only [List.dropWhile_cons, h, if_true, List.length_cons]
      omega
    · simp [List.dropWhile_cons, h]

/-- The greedy word run over `key ++ '}' :: l` is exactly `key`. -/
theorem takeWhile_word_key (key l : List Char)
    (hk : ∀ c ∈ key, isWordChar c = true) :
    List.takeWhile isWordChar (key ++ '}' :: l) = key := by
  induction key with
  | nil =>
    simp [List.takeWhile_cons, isWordChar_rbrace]
  | cons c t ih =>
    have hc : isWordChar c = true := hk c (List.mem_cons_self c t)
    simp [List.takeWhile_cons, hc,
      ih (fun x hx => hk x (List.mem_cons_of_mem c hx))]

/-- Dropping the greedy word run over `key ++ '}' :: l` leaves `'}' :: l`. -/
theorem dropWhile_word_key (key l : List Char)
    (hk : ∀ c ∈ key, isWordChar c = true) :
    List.dropWhile isWordChar (key ++ '}' :: l) = '}' :: l := by
  induction key with
  | nil =>
    simp [List.dropWhile_cons, isWordChar_rbrace]
  | cons c t ih =>
    have hc : isWordChar c = true := hk c (List.mem_cons_self c t)
    simp [List.dropWhile_cons, hc,
      ih (fun x hx => hk x (List.mem_cons_of_mem c hx))]

/-- A well-formed placeholder tail is recognised, with the right key
and remainder. -/
theorem matchPlaceholder_key (key rest : List Char) (hne : key ≠ [])
    (hk : ∀ c ∈ key, isWordChar c = true) :
    matchPlaceholder (key ++ '}' :: '}' :: rest) = some (key, rest) := by
  have hempty : key.isEmpty = false := by
    cases key with
    | nil => exact absurd rfl hne
    | cons _ _ => rfl
  unfold matchPlaceholder
  rw [takeWhile_word_key key ('}' :: rest) hk, dropWhile_word_key key ('}' :: rest) hk]
  simp [hempty]

/-- A recognised placeholder consumes at least its two closing braces
from the scanned tail. -/
theorem matchPlaceholder_bound {cs key rest : List Char}
    (h : matchPlaceholder cs = some (key, rest)) : rest.length + 2 ≤ cs.length := by
  unfold matchPlaceholder at h
  by_cases h1 : (cs.takeWhile isWordChar).isEmpty
  · simp [h1] at h
  · by_cases h2 : (cs.dropWhile isWordChar).take 2 = ['}', '}']
    · simp [h1, h2] at h
      obtain ⟨-, hrest⟩ := h
      have hlen : (cs.dropWhile isWordChar).length ≤ cs.length :=
        length_dropWhile_le _ _
      have h2len : 2 ≤ (cs.dropWhile isWordChar).length := by
        have := congrArg List.length h2
        simp [List.length_take] at this
        omega
      have := congrArg List.length hrest
      simp [List.length_drop] at this
      omega
    · simp [h1, h2] at h

/-- Fuel does not matter once it covers the text length. -/
theorem substFuel_congr (data : String → Option String) :
    ∀ f1 f2 cs, cs.length ≤ f1 → cs.length ≤ f2 →
      substFuel data f1 cs = substFuel data f2 cs := by
  intro f1
  induction f1 with
  | zero =>
    intro f2 cs h1 _
    have : cs = [] := List.length_eq_zero.mp (Nat.le_zero.mp h1)
    subst this
    simp [substFuel_nil]
  | succ n ih =>
    intro f2 cs h1 h2
    cases cs with
    | nil => simp [substFuel_nil]
    | cons c cs' =>
      cases f2 with
      | zero => simp at h2
      | succ m =>
        by_cases hc : c = '{'
        · subst hc
          cases cs' with
          | nil => simp [substFuel, substFuel_nil]
          | cons c2 cs2 =>
            by_cases hc2 : c2 = '{'
            · subst hc2
              rcases hmp : matchPlaceholder cs2 with _ | ⟨key, rest⟩
              · simp only [substFuel, hmp, if_pos rfl]
                have hlen : ('{' :: cs2).length ≤ n := by
                  simp at h1 ⊢
                  omega
                have hlen2 : ('{' :: cs2).length ≤ m := by
                  simp at h2 ⊢
                  omega
                rw [ih m ('{' :: cs2) hlen hlen2]
              · simp only [substFuel, hmp, if_pos rfl]
                have hb := matchPlaceholder_bound hmp
                have hlen : rest.length ≤ n := by
                  simp at h1
                  omega
                have hlen2 : rest.length ≤ m := by
                  simp at h2
                  omega
                rw [ih m rest hlen hlen2]
                simp
            · simp only [substFuel, if_pos rfl, if_neg hc2]
              have hlen : (c2 :: cs2).length ≤ n := by
                simp at h1 ⊢
                omega
              have hlen2 : (c2 :: cs2).length ≤ m := by
                simp at h2 ⊢
                omega
              rw [ih m (c2 :: cs2) hlen hlen2]
        · simp only [substFuel, if_neg hc]
          have hlen : cs'.length ≤ n := by
            simp at h1
            omega
          have hlen2 : cs'.length ≤ m := by
            simp at h2
            omega
          rw [ih m cs' hlen hlen2]

/-- Scanning passes over brace-free literal text unchanged. -/
theorem substFuel_append_lit (data : String → Option String)
    (lit : List Char) (hlit : '{' ∉ lit) :
    ∀ (rest : List Char) (f : Nat), (lit ++ rest).length ≤ f →
      substFuel data f (lit ++ rest) = lit ++ substFuel data rest.length rest := by
  induction lit with
  | nil =>
    intro rest f hf
    simp only [List.nil_append]
    exact substFuel_congr data f rest.length rest (by simpa using hf) (le_refl _)
  | cons c t ih =>
    intro rest f hf
    have hc : c ≠ '{' := fun h => hlit (h ▸ List.mem_cons_self c t)
    have ht : '{' ∉ t := fun h => hlit (List.mem_cons_of_mem c h)
    cases f with
    | zero => simp at hf
    | succ n =>
      simp only [List.cons_append, substFuel, if_neg hc]
      exact congrArg (List.cons c) (ih ht rest n (by simp at hf ⊢; omega))

/-- Scanning replaces a leading well-formed placeholder and continues
after it. -/
theorem substFuel_hole (data : String → Option String)
    (key rest : List Char) (hne : key ≠ [])
    (hk : ∀ c ∈ key, isWordChar c = true)
    (f : Nat) (hf : ('{' :: '{' :: (key ++ '}' :: '}' :: rest)).length ≤ f) :
    substFuel data f ('{' :: '{' :: (key ++ '}' :: '}' :: rest))
      = Seg.substOne data (Seg.hole key) ++ substFuel data rest.length rest := by
  cases f with
  | zero => simp at hf
  | succ n =>
    simp only [substFuel, if_pos rfl, matchPlaceholder_key key rest hne hk]
    have hlen : rest.length ≤ n := by
      simp at hf
      omega
    rw [substFuel_congr data n rest.length rest hlen (le_refl _)]
    rfl

/-- Scanning a whole well-formed segment list substitutes segment-wise. -/
theorem substFuel_render (data : String → Option String) :
    ∀ segs : List Seg, (∀ s ∈ segs, s.wf = true) →
      ∀ f, (renderTemplate segs).length ≤ f →
        substFuel data f (renderTemplate segs) = substSegs data segs := by
  intro segs
  induction segs with
  | nil =>
    intro _ f _
    simp [renderTemplate, substSegs, substFuel_nil]
  | cons s t ih =>
    intro h f hf
    have hs : s.wf = true := h s (List.mem_cons_self s t)
    have ht : ∀ x ∈ t, x.wf = true := fun x hx => h x (List.mem_cons_of_mem s hx)
    cases s with
    | lit l =>
      have hmem : '{' ∉ l := by
        simp only [Seg.wf, Bool.not_eq_true'] at hs
        simpa [List.elem_iff] using hs
      have hrw : renderTemplate (Seg.lit l :: t) = l ++ renderTemplate t := by
        simp [renderTemplate, Seg.render]
      rw [hrw] at hf ⊢
      rw [substFuel_append_lit data l hmem (renderTemplate t) f hf]
      rw [ih ht (renderTemplate t).length (le_refl _)]
      simp [substSegs, Seg.substOne]
    | hole k =>
      have hparts := hs
      simp only [Seg.wf, Bool.and_eq_true, Bool.not_eq_true'] at hparts
      obtain ⟨hempty, hall⟩ := hparts
      have hne : k ≠ [] := by
        cases k with
        | nil => simp at hempty
        | cons _ _ => exact List.cons_ne_nil _ _
      have hk : ∀ c ∈ k, isWordChar c = true := List.all_eq_true.mp hall
      have hrw : renderTemplate (Seg.hole k :: t)
          = '{' :: '{' :: (k ++ '}' :: '}' :: renderTemplate t) := by
        simp [renderTemplate, Seg.render]
      rw [hrw] at hf ⊢
      rw [substFuel_hole data k (renderTemplate t) hne hk f hf]
      rw [ih ht (renderTemplate t).length (le_refl _)]
      simp [substSegs]

/-- Claim C9: for every well-formed template (literal text free of `{`
alternating with placeholders over non-empty word-character keys) and
every data map, `substituteTemplate` replaces exactly the placeholders
whose key is defined in the data and leaves every other placeholder
verbatim. -/
theorem substituteTemplate_segmentwise (segs : List Seg)
    (data : String → Option String) (h : ∀ s ∈ segs, s.wf = true) :
    substituteTemplate (String.mk (renderTemplate segs)) data
      = String.mk (substSegs data segs) := by
  unfold substituteTemplate
  exact congrArg String.mk (substFuel_render data segs h _ (le_refl _))

/-- Witness for C9: a concrete template with one defined and one
undefined placeholder. -/
theorem substituteTemplate_segmentwise_witness :
    substituteTemplate
        (String.mk (renderTemplate
          [Seg.lit ("Dose: ".data), Seg.hole ("dose".data),
           Seg.lit (" for ".data), Seg.hole ("patientName".data)]))
        (fun k => if k = "dose" then some "10mg" else none)
      = String.mk (substSegs (fun k => if k = "dose" then some "10mg" else none)
          [Seg.lit ("Dose: ".data), Seg.hole ("dose".data),
           Seg.lit (" for ".data), Seg.hole ("patientName".data)]) :=
  substituteTemplate_segmentwise
    [Seg.lit ("Dose: ".data), Seg.hole ("dose".data),
     Seg.lit (" for ".data), Seg.hole ("patientName".data)]
    (fun k => if k = "dose" then some "10mg" else none) (by decide)

end PdfService
